import Mathlib

/-!
# Formal model of the nova-pro-cloudwatch-dashboard checking scripts

A shallow embedding, in Lean 4, of the conformance-checking logic of the
repository:

* `scripts/validate-template.py` — the static template validator
  (`TemplateValidator`): section/SNS/resource/security/production/size
  rules, the tiered report and the exit code;
* `test_dashboard_metrics.py` — the live probe (`NovaProDashboardTester`):
  the invocation loop, the report generator and the terminal exit decision;
* `verify_dashboard_widgets.py` — the widget classifier;
* `test_template_properties.py` — the parameter-default property test and
  the three text extractors.

Python strings are modelled as Lean `String`s (scanning is done on
`String.data`, a `List Char`); Python floats are modelled as `ℚ` (for every
comparison embedded here the IEEE-double computation and the exact rational
computation agree, as argued at the definition sites); Python code that can
raise is modelled in `Except`/`Option`.  Python `dict`s are modelled as
insertion-ordered association lists; Python `set`s of strings are modelled
by the first-occurrence list of their elements together with an explicit
iteration-order function (CPython iterates a `set` of `str` in an order
that depends on the per-process hash seed, so the order is not a function
of the input document alone).
-/

/-! ## String scanning primitives (Python `in`, `str.find`, `re` literals) -/

/-- Python's `\s` whitespace class restricted to ASCII: space, tab,
newline, carriage return, vertical tab, form feed. -/
def pyIsSpace (c : Char) : Bool :=
  c = ' ' || c = '\t' || c = '\n' || c = '\r' || c = '\x0b' || c = '\x0c'

/-- Python's `\w` word-character class restricted to ASCII:
letters, digits and underscore. -/
def pyIsWord (c : Char) : Bool :=
  c.isAlphanum || c = '_'

/-- `listIsPre pat l` holds when `pat` is a prefix of `l`
(character-by-character comparison, as Python's `str.startswith`). -/
def listIsPre : List Char → List Char → Bool
  | [], _ => true
  | _ :: _, [] => false
  | p :: ps, c :: cs => p = c && listIsPre ps cs

/-- Substring search on character lists: Python's `needle in hay`
(also `hay.find(needle) != -1`). -/
def listContains : List Char → List Char → Bool
  | hay, needle =>
    if listIsPre needle hay then true
    else
      match hay with
      | [] => false
      | _ :: t => listContains t needle

/-- Python's `needle in hay` on strings. -/
def pyIn (needle hay : String) : Bool :=
  listContains hay.data needle.data

/-- Python's `hay.find(needle)`: index of the first occurrence, `none`
standing for the `-1` sentinel. -/
def listFind : List Char → List Char → Nat → Option Nat
  | hay, needle, i =>
    if listIsPre needle hay then some i
    else
      match hay with
      | [] => none
      | _ :: t => listFind t needle (i + 1)

/-- `pyFind hay needle` models Python's `hay.find(needle)` with `none`
for `-1`. -/
def pyFind (hay needle : String) : Option Nat :=
  listFind hay.data needle.data 0

/-- Case-insensitive substring search: models
`re.search(lit, hay, re.IGNORECASE)` for a literal pattern `lit`
(both sides lowered character-wise, which for ASCII literals is exactly
what `re.IGNORECASE` does). -/
def pyInCI (needle hay : String) : Bool :=
  listContains (hay.data.map Char.toLower) (needle.data.map Char.toLower)

/-- Split a character list at newline characters; models
Python's `s.split('\n')` (`''.split('\n') == ['']`). -/
def splitNl : List Char → List (List Char)
  | [] => [[]]
  | '\n' :: t => [] :: splitNl t
  | c :: t =>
    match splitNl t with
    | [] => [[c]]
    | h :: r => (c :: h) :: r

/-- Python's `str.strip()`: remove leading and trailing whitespace. -/
def pyStrip (s : String) : String :=
  String.mk ((s.data.dropWhile pyIsSpace).reverse.dropWhile pyIsSpace).reverse

/-- Non-overlapping left-to-right replacement on character lists;
models Python's `str.replace(old, new)` for non-empty `old`.  The fuel
argument (instantiated with the list's length, an upper bound on the
number of scanning steps) makes the recursion structural so that the
definition evaluates inside the kernel. -/
def listReplaceAux (old new : List Char) : Nat → List Char → List Char
  | 0, l => l
  | _ + 1, [] => []
  | fuel + 1, c :: t =>
    if listIsPre old (c :: t) && !old.isEmpty then
      new ++ listReplaceAux old new fuel ((c :: t).drop old.length)
    else
      c :: listReplaceAux old new fuel t

/-- Python's `str.replace` on strings. -/
def pyReplace (s old new : String) : String :=
  String.mk (listReplaceAux old.data new.data s.data.length s.data)

/-- Python slice `s[a:b]` for `0 ≤ a ≤ b`. -/
def pySlice (s : String) (a b : Nat) : String :=
  String.mk ((s.data.drop a).take (b - a))

/-- Python slice `s[a:]`. -/
def pySliceFrom (s : String) (a : Nat) : String :=
  String.mk (s.data.drop a)

lemma length_dropWhile_le (p : α → Bool) (l : List α) :
    (l.dropWhile p).length ≤ l.length := by
  induction l with
  | nil => simp [List.dropWhile]
  | cons a t ih =>
    simp only [List.dropWhile]
    cases p a <;> simp <;> omega

/-! ## `scripts/validate-template.py` — the static template validator

The validator is a class holding three message buckets (`errors`,
`warnings`, `info`); every rule only ever appends to a bucket.  Each rule
method is embedded as a state transformer that appends the rule's
computed message lists (`…Errors`, `…Warnings`, `…Info` below follow the
source's append order within each bucket). -/

/-- The three message buckets of `TemplateValidator`. -/
structure VState where
  errors : List String
  warnings : List String
  info : List String
deriving Repr, DecidableEq

/-- `re.findall(r'sns:(\w+)', content)`: the captured word of each
non-overlapping left-to-right match of `sns:` followed by a non-empty
maximal word-character run.  At a position where `sns:` is not followed
by a word character the scanner advances one character, exactly as the
regex engine does.  The fuel argument (instantiated with the list's
length, an upper bound on the number of scanning steps) makes the
recursion structural so that the definition evaluates inside the
kernel. -/
def findallSnsAux : Nat → List Char → List String
  | 0, _ => []
  | fuel + 1, 's' :: 'n' :: 's' :: ':' :: rest =>
    if (rest.takeWhile pyIsWord).isEmpty then
      findallSnsAux fuel ('n' :: 's' :: ':' :: rest)
    else
      String.mk (rest.takeWhile pyIsWord) :: findallSnsAux fuel (rest.dropWhile pyIsWord)
  | fuel + 1, _ :: t => findallSnsAux fuel t
  | _ + 1, [] => []

/-- `re.findall(r'sns:(\w+)', content)` on a character list. -/
def findallSns (l : List Char) : List String :=
  findallSnsAux l.length l

/-- The first-occurrence element list of `set(l)` for a list of strings:
the canonical presentation of the set's contents (its iteration order is
supplied separately, see `runValidation`). -/
def pyDedup (l : List String) : List String :=
  l.foldl (fun acc s => if s ∈ acc then acc else acc ++ [s]) []

/-- The action suffixes of the `valid_sns_actions` allow-list, i.e.
`{action.split(':')[1] for action in valid_sns_actions}`. -/
def validSnsActionSuffixes : List String :=
  ["AddPermission", "DeleteTopic", "GetDataProtectionPolicy",
   "GetTopicAttributes", "ListSubscriptionsByTopic", "ListTagsForResource",
   "Publish", "PutDataProtectionPolicy", "RemovePermission",
   "SetTopicAttributes", "Subscribe"]

/-- Python's `repr` of a set of strings presented in the order `l`
(`set()` when empty, otherwise brace-delimited single-quoted elements). -/
def pySetRepr (l : List String) : String :=
  if l.isEmpty then "set()"
  else "\x7b" ++ String.intercalate ", " (l.map (fun s => "\x27" ++ s ++ "\x27")) ++ "\x7d"

/-- Does `re.search(r'Action:\s*["\x27]?\*["\x27]?', content, re.IGNORECASE)`
match at the head of this suffix?  The trailing optional quote never
affects matching success, so a match is: `Action:` case-insensitively,
a whitespace run, an optional quote, then `*`. -/
def wildcardActionAt (l : List Char) : Bool :=
  if listIsPre ("action:".data) (l.map Char.toLower) then
    match (l.drop 7).dropWhile pyIsSpace with
    | '*' :: _ => true
    | '"' :: '*' :: _ => true
    | '\x27' :: '*' :: _ => true
    | _ => false
  else false

/-- `re.search` of the wildcard-action pattern: try every suffix. -/
def searchWildcardAction : List Char → Bool
  | [] => wildcardActionAt []
  | l@(_ :: t) => wildcardActionAt l || searchWildcardAction t

/-- The five `required_sections` of `load_template`. -/
def requiredSections : List String :=
  ["AWSTemplateFormatVersion", "Description", "Parameters", "Resources", "Outputs"]

/-- The required sections whose `f'{section}:'` marker is absent from the
document. -/
def missingSections (c : String) : List String :=
  requiredSections.filter (fun s => !(pyIn (s ++ ":") c))

/-- `TemplateValidator.load_template` on an already-read document:
appends one error per missing section and one info per found section,
and returns `yaml_structure_valid` (true iff no section is missing). -/
def loadTemplate (c : String) (st : VState) : VState × Bool :=
  ({ st with
      errors := st.errors ++
        (missingSections c).map (fun s => "Missing required section: " ++ s),
      info := st.info ++
        (requiredSections.filter (fun s => pyIn (s ++ ":") c)).map
          (fun s => "✅ Found section: " ++ s) },
   (missingSections c).isEmpty)

/-- `set(re.findall(r'sns:(\w+)', content))`, as its canonical
first-occurrence element list. -/
def snsActionsOf (c : String) : List String :=
  pyDedup (findallSns c.data)

/-- `invalid_actions = sns_actions - {valid suffixes}`, canonical list. -/
def snsInvalidActions (c : String) : List String :=
  (snsActionsOf c).filter (fun a => !(validSnsActionSuffixes.contains a))

/-- The error messages appended by `validate_sns_policies`, in source
order: one per invalid action (iterated in set order `σ`), then the three
problematic-pattern messages. -/
def snsErrors (σ : List String → List String) (c : String) : List String :=
  (if (snsInvalidActions c).isEmpty then []
   else (σ (snsInvalidActions c)).map
     (fun a => "Invalid SNS action found: sns:" ++ a)) ++
  (if searchWildcardAction c.data then
     ["Wildcard action (*) not allowed in SNS policies"] else []) ++
  (if pyInCI "sns:Unsubscribe" c then
     ["sns:Unsubscribe is not a valid SNS topic policy action"] else []) ++
  (if pyInCI "sns:Receive" c then
     ["sns:Receive is not a valid SNS topic policy action"] else [])

/-- The info messages appended by `validate_sns_policies`, in source
order: the all-valid message (rendering the action set in set order `σ`),
then the two condition-key messages. -/
def snsInfo (σ : List String → List String) (c : String) : List String :=
  (if (snsInvalidActions c).isEmpty then
     ["✅ All SNS actions are valid: " ++ pySetRepr (σ (snsActionsOf c))]
   else []) ++
  (if pyIn "aws:SecureTransport" c then
     ["✅ Using aws:SecureTransport condition for TLS enforcement"] else []) ++
  (if pyIn "aws:SourceAccount" c then
     ["✅ Using aws:SourceAccount condition for security"] else [])

/-- `TemplateValidator.validate_sns_policies`. -/
def validateSnsPolicies (σ : List String → List String) (c : String)
    (st : VState) : VState :=
  { st with errors := st.errors ++ snsErrors σ c, info := st.info ++ snsInfo σ c }

/-- Does a line match `re.findall(r'^  \w+:\s*$', …, re.MULTILINE)`?
Exactly two leading spaces, a non-empty word run, a colon, then only
whitespace.  (Counting matching lines equals counting the regex's
matches: a match's trailing `\s*` consumes only whitespace and so can
never swallow another matching line.) -/
def resourceLineMatch : List Char → Bool
  | ' ' :: ' ' :: rest =>
    if (rest.takeWhile pyIsWord).isEmpty then false
    else
      match rest.dropWhile pyIsWord with
      | ':' :: tail => tail.all pyIsSpace
      | _ => false
  | _ => false

/-- `resource_count` of `validate_resource_structure`. -/
def resourceCount (c : String) : Nat :=
  ((splitNl c.data).filter resourceLineMatch).length

/-- The `required_resources` (type, description) pairs. -/
def requiredResources : List (String × String) :=
  [("AWS::CloudWatch::Dashboard", "CloudWatch Dashboard"),
   ("AWS::CloudWatch::Alarm", "CloudWatch Alarms")]

/-- The `optional_resources` (type, description) pairs. -/
def optionalResources : List (String × String) :=
  [("AWS::SNS::Topic", "SNS Topic (conditional)"),
   ("AWS::IAM::Role", "IAM Role (optional - customer may use existing)"),
   ("AWS::IAM::ManagedPolicy", "IAM Managed Policy (optional - customer may use existing)")]

/-- Error messages of `validate_resource_structure`, in source order. -/
def resourceErrors (c : String) : List String :=
  (if resourceCount c > 0 then [] else ["No resources found in template"]) ++
  (requiredResources.filterMap (fun p =>
    if pyIn p.1 c then none else some ("❌ Missing required " ++ p.2)))

/-- Info messages of `validate_resource_structure`, in source order. -/
def resourceInfo (c : String) : List String :=
  (if resourceCount c > 0 then
     ["✅ Found " ++ toString (resourceCount c) ++ " resources"] else []) ++
  (requiredResources.filterMap (fun p =>
    if pyIn p.1 c then some ("✅ Found " ++ p.2) else none)) ++
  (optionalResources.map (fun p =>
    if pyIn p.1 c then "✅ Found " ++ p.2 else "ℹ️  " ++ p.2 ++ " not found"))

/-- `TemplateValidator.validate_resource_structure`. -/
def validateResourceStructure (c : String) (st : VState) : VState :=
  { st with errors := st.errors ++ resourceErrors c,
            info := st.info ++ resourceInfo c }

/-- Info messages of `validate_security_best_practices` (this rule
appends only info, never errors or warnings), in source order. -/
def securityInfo (c : String) : List String :=
  (if pyIn "DashboardViewerPolicy" c then ["✅ Found least-privilege IAM policy"]
   else ["ℹ️  No IAM resources - customer will use existing role"]) ++
  (if pyIn "KmsMasterKeyId" c then ["✅ SNS topic encryption configured"] else []) ++
  (if pyIn "DeletionPolicy: Retain" c then ["✅ Deletion protection configured"] else []) ++
  (if pyIn "aws:SecureTransport" c then ["✅ Secure transport enforcement found"] else []) ++
  (if pyIn "aws:SourceAccount" c then ["✅ Account-based access restrictions found"] else [])

/-- `TemplateValidator.validate_security_best_practices`. -/
def validateSecurityBestPractices (c : String) (st : VState) : VState :=
  { st with info := st.info ++ securityInfo c }

/-- The `tag_keys` of `validate_production_readiness`. -/
def productionTagKeys : List String := ["Environment", "Owner", "CostCenter", "Purpose"]

/-- The `alarm_types` of `validate_production_readiness`. -/
def productionAlarmTypes : List String := ["ErrorRate", "Latency", "Cost", "Throttling"]

/-- The alarm-presence test of `validate_production_readiness`:
either marker form found in the document. -/
def alarmTypeFound (c : String) (t : String) : Bool :=
  pyIn ("AlarmType\n          Value: " ++ t) c || pyIn ("AlarmType: " ++ t) c

/-- Warning messages of `validate_production_readiness`, in source order:
missing tags, then missing alarm types. -/
def productionWarnings (c : String) : List String :=
  (productionTagKeys.filterMap (fun t =>
    if pyIn ("Key: " ++ t) c then none else some ("⚠️  Missing " ++ t ++ " tag"))) ++
  (productionAlarmTypes.filterMap (fun t =>
    if alarmTypeFound c t then none else some ("⚠️  Missing " ++ t ++ " alarm")))

/-- Info messages of `validate_production_readiness`, in source order. -/
def productionInfo (c : String) : List String :=
  (productionTagKeys.filterMap (fun t =>
    if pyIn ("Key: " ++ t) c then some ("✅ Found " ++ t ++ " tag") else none)) ++
  (productionAlarmTypes.filterMap (fun t =>
    if alarmTypeFound c t then some ("✅ Found " ++ t ++ " alarm") else none)) ++
  (if pyIn "Parameters:" c && pyIn "MonitoringRegion" c then
     ["✅ Template is properly parameterized"] else []) ++
  (if pyIn "DashboardURL" c && pyIn "DashboardName" c then
     ["✅ Essential outputs provided"] else [])

/-- `TemplateValidator.validate_production_readiness`. -/
def validateProductionReadiness (c : String) (st : VState) : VState :=
  { st with warnings := st.warnings ++ productionWarnings c,
            info := st.info ++ productionInfo c }

/-- Warnings of `validate_template_size` (document byte size over the
50 KB CloudFormation limit). -/
def sizeWarnings (size : Nat) : List String :=
  if size > 51200 then
    ["⚠️  Template size (" ++ toString size ++
       " bytes) exceeds CloudFormation validation limit (51KB)",
     "   This is normal for comprehensive templates - deploy directly"]
  else []

/-- Info of `validate_template_size`. -/
def sizeInfo (size : Nat) : List String :=
  if size > 51200 then []
  else ["✅ Template size (" ++ toString size ++ " bytes) within limits"]

/-- `TemplateValidator.validate_template_size`; `size` is the document's
byte size (`self.template_path.stat().st_size`). -/
def validateTemplateSize (size : Nat) (st : VState) : VState :=
  { st with warnings := st.warnings ++ sizeWarnings size,
            info := st.info ++ sizeInfo size }

/-- `TemplateValidator.run_validation`.  `σ` is the iteration order
CPython uses for the run's string sets (hash-seed dependent; `σ l` is the
order in which the set whose canonical element list is `l` is iterated).
Returns the final buckets and the boolean result: `False` immediately
after a failed `load_template`, otherwise `False` iff the error bucket is
non-empty. -/
def runValidation (σ : List String → List String) (c : String) (size : Nat) :
    VState × Bool :=
  let st0 : VState := ⟨[], [], []⟩
  let (st1, ok) := loadTemplate c st0
  if !ok then (st1, false)
  else
    let st2 := validateSnsPolicies σ c st1
    let st3 := validateResourceStructure c st2
    let st4 := validateSecurityBestPractices c st3
    let st5 := validateProductionReadiness c st4
    let st6 := validateTemplateSize size st5
    (st6, st6.errors.isEmpty)

/-- The three-way verdict of `run_validation`'s final report (a failed
`load_template` also counts as `fail`: the script prints a failure
message and returns `False`). -/
inductive Outcome where
  | fail
  | passWithWarnings
  | pass
deriving Repr, DecidableEq

/-- The overall verdict of a validator run. -/
def runOutcome (σ : List String → List String) (c : String) (size : Nat) :
    Outcome :=
  let (st, ok) := runValidation σ c size
  if !ok then .fail
  else if !st.warnings.isEmpty then .passWithWarnings
  else .pass

/-- `sys.exit(0 if success else 1)` of `main`. -/
def mainExitCode (σ : List String → List String) (c : String) (size : Nat) :
    Nat :=
  if (runValidation σ c size).2 then 0 else 1

/-! ## `test_dashboard_metrics.py` — the live probe

External effects (the model endpoint, the wall clock, `datetime.utcnow`)
are modelled by an environment function giving each invocation's outcome;
JSON values are modelled by `PyJson`; Python floats by `ℚ` (the float
literals `1.3` and `0.8` denote dyadic approximations, but every
comparison and truncation embedded below computes the same result over
the rationals: for `successful >= total*0.8`, when `total` is a multiple
of 5 the rounded product `total*0.8` is exactly the integer `4*total/5`
— the rounding increment is below half an ulp — and otherwise the exact
value is at least `1/5` away from any integer, far above the rounding
error, so the integer comparison agrees with the exact one). -/

/-- A JSON value as produced by `json.loads`. -/
inductive PyJson where
  | null
  | bool (b : Bool)
  | num (q : ℚ)
  | str (s : String)
  | arr (l : List PyJson)
  | obj (l : List (String × PyJson))

/-- `v is None`. -/
def PyJson.isNull : PyJson → Bool
  | .null => true
  | _ => false

/-- Python `dict` lookup on an association list (`d[k]` / `k in d`). -/
def pyGet (l : List (String × PyJson)) (k : String) : Option PyJson :=
  (l.find? (fun p => p.1 = k)).map (fun p => p.2)

/-- Python `dict` item assignment `d[k] = v`: replace in place if the key
exists, else append. -/
def dictSet {α : Type} (l : List (String × α)) (k : String) (v : α) :
    List (String × α) :=
  match l with
  | [] => [(k, v)]
  | (k0, v0) :: t => if k0 = k then (k0, v) :: t else (k0, v0) :: dictSet t k v

/-- Python `str.split()` word count: the number of maximal
non-whitespace runs. -/
def pyWordCount (s : String) : Nat :=
  (s.data.foldl
    (fun st ch =>
      if pyIsSpace ch then (st.1, false)
      else (if st.2 then st.1 else st.1 + 1, true))
    ((0 : Nat), false)).1

/-- Python `int(x)` on a float: truncation toward zero. -/
def pyTrunc (q : ℚ) : Int :=
  if q ≥ 0 then ⌊q⌋ else ⌈q⌉

/-- The `test_prompts` cycle of `generate_test_invocations`. -/
def testPrompts : List String :=
  ["What is artificial intelligence?",
   "Explain machine learning and its applications in modern technology.",
   "Write about cloud computing benefits and challenges for enterprises."]

/-- The outcome the environment (model endpoint + clock) delivers for one
invocation: either a parsed response body with its measured latency, or
an exception message (any `Exception` raised inside the loop's `try`
block).  `timestamp` is the `datetime.utcnow().isoformat()` read for the
record. -/
inductive InvokeOutcome where
  | ok (latencyMs : ℚ) (responseBody : PyJson) (timestamp : String)
  | exn (msg : String) (timestamp : String)

/-- One element of `test_results`: a success record carries latency and
token estimates, a failure record carries the error text (absent keys
are `none`). -/
structure InvRecord where
  invocation : Nat
  latency_ms : Option ℚ := none
  input_tokens_est : Option Int := none
  output_tokens_est : Option Int := none
  success : Bool
  error : Option String := none
  timestamp : String
deriving DecidableEq, Repr

/-- The `output_text` extraction of `generate_test_invocations`:
`response_body['output']['message'].get('content', [])`, then the first
element's `text` if the content list is non-empty (response bodies are
JSON objects; a missing key or non-matching shape leaves the default
`''`). -/
def extractOutputText (body : PyJson) : String :=
  match body with
  | .obj fields =>
    match pyGet fields "output" with
    | some (.obj outputFields) =>
      match pyGet outputFields "message" with
      | some (.obj messageFields) =>
        match pyGet messageFields "content" with
        | some (.arr (first :: _)) =>
          match first with
          | .obj firstFields =>
            match pyGet firstFields "text" with
            | some (.str t) => t
            | _ => ""
          | _ => ""
        | _ => ""
      | _ => ""
    | _ => ""
  | _ => ""

/-- The success record built in the `try` body for invocation index `i`
(0-based; the recorded `invocation` is `i + 1`). -/
def mkSuccessRecord (i : Nat) (lat : ℚ) (body : PyJson) (ts : String) :
    InvRecord :=
  let prompt := testPrompts.getD (i % testPrompts.length) ""
  let inputTokens : ℚ := (pyWordCount prompt : ℚ) * 1.3
  let outputText := extractOutputText body
  let outputTokens : ℚ :=
    if outputText ≠ "" then (pyWordCount outputText : ℚ) * 1.3 else 50
  { invocation := i + 1,
    latency_ms := some lat,
    input_tokens_est := some (pyTrunc inputTokens),
    output_tokens_est := some (pyTrunc outputTokens),
    success := true,
    error := none,
    timestamp := ts }

/-- The failure record built in the `except` handler. -/
def mkFailureRecord (i : Nat) (msg : String) (ts : String) : InvRecord :=
  { invocation := i + 1,
    success := false,
    error := some msg,
    timestamp := ts }

/-- `NovaProDashboardTester.generate_test_invocations`: a fixed loop over
`range(num_invocations)`; each iteration appends exactly one record —
the `except` clause converts a raised exception into a failure record and
the loop proceeds with the next index. -/
def generateTestInvocations (env : Nat → InvokeOutcome) (n : Nat) :
    List InvRecord :=
  (List.range n).map (fun i =>
    match env i with
    | .ok lat body ts => mkSuccessRecord i lat body ts
    | .exn msg ts => mkFailureRecord i msg ts)

/-- `sum(1 for r in test_results if r.get('success', False))`. -/
def successCount (rs : List InvRecord) : Nat :=
  (rs.filter (fun r => r.success)).length

/-- The result dictionary of `verify_dashboard_widgets` (the method of
`NovaProDashboardTester`): either the success shape or the failure shape;
keys absent from the respective shape are `none`. -/
structure WidgetVerification where
  dashboard_accessible : Bool
  widgets_count : Option Nat := none
  metrics_available : Option Bool := none
  error : Option String := none

/-- `successful_invocations >= len(test_results) * 0.8` of `main`
(exact over ℚ; agrees with the IEEE-double evaluation, see the section
comment). -/
def invocationSuccess (rs : List InvRecord) : Bool :=
  decide ((successCount rs : ℚ) ≥ (rs.length : ℚ) * 0.8)

/-- The terminal exit decision of `main` (lines 377–385): exit code 0
iff the invocation-success threshold is met and the dashboard was
accessible. -/
def mainExitDecision (rs : List InvRecord) (wv : WidgetVerification) : Nat :=
  if invocationSuccess rs && wv.dashboard_accessible then 0 else 1

/-- The result dictionary of `verify_cost_calculations`. -/
structure CostVerification where
  cost_calculation_available : Bool
  expected_cost : Option ℚ := none
  total_input_tokens : Option Int := none
  total_output_tokens : Option Int := none
  error : Option String := none

/-- The `self` fields `generate_test_report` reads. -/
structure TesterSelf where
  region : String
  stack_name : String
  model_id : String
  dashboard_name : String
  stack_info_DashboardURL : Option String

/-- Python division, which raises `ZeroDivisionError` on a zero
denominator. -/
def pyDivQ (a b : ℚ) : Except String ℚ :=
  if b = 0 then Except.error "ZeroDivisionError: division by zero"
  else Except.ok (a / b)

/-- A run of `n` copies of one character (`'=' * 80`, `'-' * 40`). -/
def charRun (c : Char) (n : Nat) : String :=
  String.mk (List.replicate n c)

/-- The `if successful_invocations > 0` block of `generate_test_report`:
average latency (dividing by the number of successful records, non-zero
in this branch) and the two token totals. -/
def latencyBlockLines (fmtQ : String → ℚ → String)
    (fmtInt : String → Int → String) (results : List InvRecord) :
    Except String (List String) :=
  if successCount results > 0 then do
    let successfulResults := results.filter (fun r => r.success)
    let avg ← pyDivQ
      (successfulResults.foldl (fun acc r => acc + r.latency_ms.getD 0) 0)
      (successfulResults.length : ℚ)
    let totalIn := successfulResults.foldl
      (fun acc r => acc + r.input_tokens_est.getD 0) 0
    let totalOut := successfulResults.foldl
      (fun acc r => acc + r.output_tokens_est.getD 0) 0
    pure ["Average Latency: " ++ fmtQ ".0f" avg ++ "ms",
          "Total Input Tokens (est): " ++ fmtInt "," totalIn,
          "Total Output Tokens (est): " ++ fmtInt "," totalOut]
  else pure []

/-- `NovaProDashboardTester.generate_test_report`, as the list of report
lines (the script joins them with `'\n'`).  `fmtQ spec x` and
`fmtInt spec x` model Python's numeric format specs (`.1f`, `.0f`,
`.4f`, `,`) — pure external rendering.  `now` is the
`datetime.utcnow().isoformat()` header value.  The computation is in
`Except` because the success-rate expression
`successful_invocations/total_invocations*100` divides by
`total_invocations`, and the average-latency expression divides by
`len(successful_results)` (only evaluated when `successful_invocations
> 0`). -/
def generateTestReportLines (fmtQ : String → ℚ → String)
    (fmtInt : String → Int → String) (self : TesterSelf) (now : String)
    (results : List InvRecord) (wv : WidgetVerification)
    (cv : CostVerification) : Except String (List String) := do
  let successful := successCount results
  let total := results.length
  let rate ← pyDivQ (successful : ℚ) (total : ℚ)
  let latencyBlock ← latencyBlockLines fmtQ fmtInt results
  let dashboardBlock :=
    if wv.dashboard_accessible then
      ["✓ Dashboard accessible",
       "✓ Found " ++ toString (wv.widgets_count.getD 0) ++ " widgets"] ++
      (if wv.metrics_available.getD false then ["✓ Metrics data available"]
       else ["⚠ No metrics data yet (may need more time)"])
    else
      ["✗ Dashboard not accessible"] ++
      (match wv.error with
       | some e => ["Error: " ++ e]
       | none => [])
  let costBlock :=
    if cv.cost_calculation_available then
      ["✓ Cost calculation data available",
       "Expected Total Cost: $" ++ fmtQ ".4f" (cv.expected_cost.getD 0)]
    else ["✗ Cost calculation data not available"]
  let overallStatus :=
    if invocationSuccess results && wv.dashboard_accessible then
      "✓ PASS - Test completed successfully"
    else if invocationSuccess results then
      "⚠ PARTIAL - Invocations successful, dashboard needs verification"
    else "✗ FAIL - Critical issues detected"
  pure
    ([charRun '=' 80,
      "NOVA PRO CLOUDWATCH DASHBOARD - TEST REPORT",
      charRun '=' 80,
      "Test Date: " ++ now,
      "Region: " ++ self.region,
      "Stack: " ++ self.stack_name,
      "Model ID: " ++ self.model_id,
      "Dashboard: " ++ self.dashboard_name,
      "",
      "TEST INVOCATION SUMMARY",
      charRun '-' 40,
      "Total Invocations: " ++ toString total,
      "Successful: " ++ toString successful,
      "Failed: " ++ toString (total - successful),
      "Success Rate: " ++ fmtQ ".1f" (rate * 100) ++ "%"] ++
     latencyBlock ++
     ["",
      "DASHBOARD VERIFICATION",
      charRun '-' 40] ++
     dashboardBlock ++
     ["",
      "COST CALCULATION VERIFICATION",
      charRun '-' 40] ++
     costBlock ++
     ["",
      "OVERALL TEST RESULT",
      charRun '-' 40,
      overallStatus,
      "",
      "Dashboard URL: " ++ self.stack_info_DashboardURL.getD "N/A",
      ""])

/-- `generate_test_report`: the joined report text. -/
def generateTestReport (fmtQ : String → ℚ → String)
    (fmtInt : String → Int → String) (self : TesterSelf) (now : String)
    (results : List InvRecord) (wv : WidgetVerification)
    (cv : CostVerification) : Except String String :=
  (generateTestReportLines fmtQ fmtInt self now results wv cv).map
    (fun lines => String.intercalate "\n" lines)

/-! ## `verify_dashboard_widgets.py` — the widget classifier -/

/-- A dashboard widget as read by the verifier:
`widget.get('properties', {}).get('title', 'Untitled')` and
`widget.get('type', 'unknown')` (absent keys are `none`). -/
structure DashWidget where
  title : Option String := none
  wtype : Option String := none

/-- The title actually classified (default `'Untitled'`). -/
def widgetTitleOf (w : DashWidget) : String :=
  w.title.getD "Untitled"

/-- The six categories of `widget_categories`, in source order. -/
inductive WidgetCategory where
  | usage
  | cost
  | performance
  | errorMonitoring
  | invocationPatterns
  | guardrails
deriving DecidableEq, Repr

/-- The position of a category in the `if`/`elif` chain (0 first). -/
def catIdx : WidgetCategory → Nat
  | .usage => 0
  | .cost => 1
  | .performance => 2
  | .errorMonitoring => 3
  | .invocationPatterns => 4
  | .guardrails => 5

/-- The keyword list each branch tests with
`any(keyword in title.lower() for keyword in …)`. -/
def categoryKeywords : WidgetCategory → List String
  | .usage => ["invocation", "tpm", "requests"]
  | .cost => ["cost", "cache"]
  | .performance => ["latency", "performance"]
  | .errorMonitoring => ["error", "success", "failed"]
  | .invocationPatterns => ["token", "concurrent"]
  | .guardrails => ["guardrail", "intervention"]

/-- Python `str.lower()` (character-wise, ASCII). -/
def pyLower (s : String) : String :=
  String.mk (s.data.map Char.toLower)

/-- `any(keyword in title.lower() for keyword in kws)`. -/
def titleMatches (kws : List String) (title : String) : Bool :=
  kws.any (fun k => pyIn k (pyLower title))

/-- The `if`/`elif` categorisation chain of `verify_dashboard_widgets`
(lines 197–208): the first matching category, or no category at all when
no keyword list matches (the chain has no `else`). -/
def classifyTitle (title : String) : Option WidgetCategory :=
  if titleMatches (categoryKeywords .usage) title then some .usage
  else if titleMatches (categoryKeywords .cost) title then some .cost
  else if titleMatches (categoryKeywords .performance) title then some .performance
  else if titleMatches (categoryKeywords .errorMonitoring) title then some .errorMonitoring
  else if titleMatches (categoryKeywords .invocationPatterns) title then some .invocationPatterns
  else if titleMatches (categoryKeywords .guardrails) title then some .guardrails
  else none

/-- The `widget_categories` counters after the widget loop: fold over the
widgets, incrementing the matched branch's counter (if any). -/
def countWidgets (ws : List DashWidget) : WidgetCategory → Nat :=
  ws.foldl
    (fun counts w =>
      match classifyTitle (widgetTitleOf w) with
      | some c => fun c2 => if c2 = c then counts c2 + 1 else counts c2
      | none => counts)
    (fun _ => 0)

/-- The total number of widgets counted in any of the six categories. -/
def sumCounts (f : WidgetCategory → Nat) : Nat :=
  f .usage + f .cost + f .performance + f .errorMonitoring +
    f .invocationPatterns + f .guardrails

/-! ## `test_template_properties.py` — parameter-default test -/

/-- The `required_params` set of
`test_optional_parameters_have_defaults`. -/
def requiredParams : List String := ["MonitoringRegion"]

/-- Lookup in a parameter's configuration dictionary
(`'Default' in param_config` / `param_config['Default']`). -/
def paramLookup (cfg : List (String × PyJson)) (k : String) : Option PyJson :=
  (cfg.find? (fun p => p.1 = k)).map (fun p => p.2)

/-- The message of the first assertion (`'Default' in param_config`). -/
def missingDefaultMsg (name : String) : String :=
  "Optional parameter \x27" ++ name ++ "\x27 is missing a Default value. " ++
    "All optional parameters must have defaults per Requirements 8.2"

/-- The message of the second assertion (`default_value is not None`). -/
def noneDefaultMsg (name : String) : String :=
  "Optional parameter \x27" ++ name ++ "\x27 has None as Default. " ++
    "Defaults should be meaningful values or empty strings."

/-- `test_optional_parameters_have_defaults` on the extracted
`Parameters` mapping (insertion-ordered): required parameters are
skipped; any other parameter must have a `Default` key whose value is
not `None`; the first violation raises an `AssertionError` naming the
parameter. -/
def testOptionalParametersHaveDefaults :
    List (String × List (String × PyJson)) → Except String Unit
  | [] => Except.ok ()
  | (name, cfg) :: rest =>
    if requiredParams.contains name then
      testOptionalParametersHaveDefaults rest
    else
      match paramLookup cfg "Default" with
      | none => Except.error (missingDefaultMsg name)
      | some v =>
        if v.isNull then Except.error (noneDefaultMsg name)
        else testOptionalParametersHaveDefaults rest

/-! ## `test_template_properties.py` — the text extractors -/

/-- `str.strip()` on a character list. -/
def pyStripList (l : List Char) : List Char :=
  ((l.dropWhile pyIsSpace).reverse.dropWhile pyIsSpace).reverse

/-- `stripped.split(':')[0]`: the part before the first colon. -/
def beforeColon (l : List Char) : List Char :=
  l.takeWhile (fun c => c ≠ ':')

/-- `stripped.split(':', 1)[1]`: the part after the first colon
(callers guard on `':' in stripped`). -/
def afterColon (l : List Char) : List Char :=
  match l.dropWhile (fun c => c ≠ ':') with
  | _ :: t => t
  | [] => []

/-- Join lines with `'\n'` (`'\n'.join(lines)`). -/
def joinNl : List (List Char) → List Char
  | [] => []
  | [l] => l
  | l :: ls => l ++ '\n' :: joinNl ls

/-- `hay.find(needle, start)`: first occurrence at or after `start`,
as an absolute index. -/
def pyFindFrom (hay needle : String) (start : Nat) : Option Nat :=
  listFind (hay.data.drop start) needle.data start

/-- `s[s.find(marker) : s.find(marker) + width]` (callers guard on the
marker being present). -/
def pyWindow (s marker : String) (width : Nat) : String :=
  match pyFind s marker with
  | some i => pySlice s i (i + width)
  | none => ""

/-- The `end_marker` of `extract_dashboard_json`: two spaces, `#`,
a space, and 72 `=` characters. -/
def dashEndMarker : String :=
  "  # " ++ charRun '=' 72

/-- `extract_dashboard_json`.  `jsonLoads` models `json.loads`
(external library), returning `Except` for a parse error.  Every raise
inside the function body (missing `DashboardBody:` start marker, missing
end marker, missing `|`, JSON parse failure) is caught by the enclosing
`except`, which prints a diagnostic and returns `None` — modelled as
`none`. -/
def extractDashboardJson (jsonLoads : String → Except String PyJson)
    (content : String) : Option PyJson :=
  match pyFind content "DashboardBody:" with
  | none => none
  | some startIdx =>
    match pyFindFrom content dashEndMarker startIdx with
    | none => none
    | some endIdx =>
      let dashboardSection := pySlice content startIdx endIdx
      match pyFind dashboardSection "|" with
      | none => none
      | some jsonStart =>
        let jsonContent := pyStrip (pySliceFrom dashboardSection (jsonStart + 1))
        let jsonContent := pyReplace jsonContent "${MonitoringRegion}" "us-east-1"
        let jsonContent := pyReplace jsonContent "${ModelId}" "amazon.nova-pro-v1:0"
        let jsonContent := pyReplace jsonContent "${ErrorRateThreshold}" "5"
        match jsonLoads jsonContent with
        | Except.error _ => none
        | Except.ok j => some j

/-- The property keys `extract_template_resources` copies verbatim. -/
def resPropertyKeys : List String :=
  ["AlarmName", "AlarmDescription", "MetricName", "Namespace"]

/-- One parsed resource of `extract_template_resources`: the `Type`
string, whether a `Properties:` line was seen, and the copied property
bag (with `AlarmActions` recorded as the marker string
`'conditional'`). -/
structure ResEntry where
  ty : Option String := none
  hasProps : Bool := false
  props : List (String × String) := []
deriving DecidableEq, Repr

/-- The line-scanner state of `extract_template_resources`. -/
structure ResParseState where
  resources : List (String × ResEntry) := []
  current : Option String := none
  entry : ResEntry := {}
  inProps : Bool := false

/-- One iteration of the line loop of `extract_template_resources`. -/
def resParseStep (st : ResParseState) (line : List Char) : ResParseState :=
  let stripped := pyStripList line
  if stripped.isEmpty || listIsPre "#".data stripped then st
  else
    let indent := (line.takeWhile pyIsSpace).length
    if indent = 2 && stripped.any (fun c => c = ':') &&
        !(listIsPre "-".data stripped) then
      { resources :=
          match st.current with
          | some nm => dictSet st.resources nm st.entry
          | none => st.resources,
        current := some (String.mk (beforeColon stripped)),
        entry := {},
        inProps := false }
    else if indent = 4 && listIsPre "Type:".data stripped then
      { st with entry :=
          { st.entry with ty := some (String.mk (pyStripList (afterColon stripped))) } }
    else if indent = 4 && stripped = "Properties:".data then
      { st with entry := { st.entry with hasProps := true, props := [] },
                inProps := true }
    else if st.inProps && indent ≥ 6 && stripped.any (fun c => c = ':') then
      let key := String.mk (beforeColon stripped)
      let value := String.mk (pyStripList (afterColon stripped))
      if key = "AlarmActions" then
        { st with entry :=
            { st.entry with props := dictSet st.entry.props "AlarmActions" "conditional" } }
      else if resPropertyKeys.contains key then
        { st with entry :=
            { st.entry with props := dictSet st.entry.props key value } }
      else st
    else st

/-- `extract_template_resources`: slice the document between
`Resources:` and `Outputs:` (to the end when `Outputs:` is absent), scan
it line by line, and flush the last resource.  A missing `Resources:`
marker raises a `ValueError` caught by the enclosing `except`, which
returns the empty mapping. -/
def extractTemplateResources (content : String) :
    List (String × ResEntry) :=
  match pyFind content "Resources:" with
  | none => []
  | some resourcesStart =>
    let resourcesSection :=
      match pyFind content "Outputs:" with
      | none => pySliceFrom content resourcesStart
      | some outputsStart => pySlice content resourcesStart outputsStart
    let final := (splitNl resourcesSection.data).foldl resParseStep {}
    match final.current with
    | some nm => dictSet final.resources nm final.entry
    | none => final.resources

/-- One IAM policy statement as summarised by `extract_iam_policies`. -/
structure PolicyStatement where
  actions : List String
  resource_scoped : Bool
  has_conditions : Option Bool := none
  service : String
  statement_type : String
deriving DecidableEq, Repr

/-- The stop test of the `policy_lines` loop in `extract_iam_policies`:
a later line starting the next top-level resource (two spaces but not
four, non-blank, first stripped character uppercase, containing a
colon). -/
def iamStopLine (l : List Char) : Bool :=
  listIsPre "  ".data l && !(listIsPre "    ".data l) &&
    !(pyStripList l).isEmpty &&
    (match pyStripList l with
     | c :: _ => c.isUpper
     | [] => false) &&
    l.any (fun c => c = ':')

/-- `extract_iam_policies`: returns the empty mapping when the
`DashboardViewerPolicy:` marker is absent; otherwise slices the policy
section up to the next top-level resource and summarises up to four
statements from marker searches in fixed-width windows. -/
def extractIamPolicies (content : String) :
    List (String × List PolicyStatement) :=
  match pyFind content "DashboardViewerPolicy:" with
  | none => []
  | some policyStart =>
    let lines := splitNl (content.data.drop policyStart)
    let policyLines :=
      match lines with
      | [] => []
      | h :: t => h :: t.takeWhile (fun l => !(iamStopLine l))
    let policySection := String.mk (joinNl policyLines)
    if pyIn "PolicyDocument:" policySection && pyIn "Statement:" policySection then
      let statements :=
        (if pyIn "cloudwatch:GetDashboard" policySection &&
            pyIn "cloudwatch:ListDashboards" policySection then
          let dashboardSection := pyWindow policySection "cloudwatch:GetDashboard" 800
          [{ actions := ["cloudwatch:GetDashboard", "cloudwatch:ListDashboards"],
             resource_scoped :=
               (pyIn "arn:aws:cloudwatch:" dashboardSection ||
                 pyIn "arn:$\x7bAWS::Partition\x7d:cloudwatch:" dashboardSection) &&
               pyIn "dashboard" dashboardSection,
             service := "cloudwatch",
             statement_type := "dashboard" }]
         else []) ++
        (if pyIn "cloudwatch:GetMetricData" policySection then
          let metricsSection := pyWindow policySection "cloudwatch:GetMetricData" 800
          [{ actions := ["cloudwatch:GetMetricData", "cloudwatch:GetMetricStatistics",
                         "cloudwatch:ListMetrics"],
             resource_scoped := !(pyIn "Resource: \x27*\x27" metricsSection),
             has_conditions := some (pyIn "Condition:" metricsSection &&
               pyIn "cloudwatch:namespace" metricsSection),
             service := "cloudwatch",
             statement_type := "metrics" }]
         else []) ++
        (if pyIn "logs:StartQuery" policySection then
          let logsSection := pyWindow policySection "logs:StartQuery" 500
          [{ actions := ["logs:StartQuery", "logs:GetQueryResults",
                         "logs:DescribeLogGroups"],
             resource_scoped := pyIn "/aws/bedrock/modelinvocations" logsSection,
             service := "logs",
             statement_type := "logs" }]
         else []) ++
        (if pyIn "bedrock:GetModelInvocationLoggingConfiguration" policySection then
          let bedrockSection :=
            pyWindow policySection "bedrock:GetModelInvocationLoggingConfiguration" 500
          [{ actions := ["bedrock:GetModelInvocationLoggingConfiguration",
                         "bedrock:ListFoundationModels"],
             resource_scoped := !(pyIn "Resource: \x27*\x27" bedrockSection),
             has_conditions := some (pyIn "Condition:" bedrockSection &&
               pyIn "aws:RequestedRegion" bedrockSection),
             service := "bedrock",
             statement_type := "bedrock" }]
         else [])
      if !statements.isEmpty then
        [("DashboardViewerInlinePolicy", statements)]
      else []
    else []

/-! ## Concrete fixtures used by witnesses and counterexamples -/

/-- A concrete parsed response body of the shape the model endpoint
returns. -/
def scenarioDBody : PyJson :=
  PyJson.obj [("output", PyJson.obj [("message", PyJson.obj
    [("content", PyJson.arr [PyJson.obj
      [("text", PyJson.str "Cloud computing offers scalability and cost savings.")]])])])]

/-- A concrete probe environment: invocation index 4 raises a throttling
exception, the other invocations succeed (so 10 invocations have 9
successes). -/
def scenarioDEnv : Nat → InvokeOutcome := fun i =>
  if i = 4 then InvokeOutcome.exn "ThrottlingException" "2025-12-01T00:00:04"
  else InvokeOutcome.ok 950 scenarioDBody ("2025-12-01T00:00:0" ++ toString i)

/-! ## Helper lemmas -/

lemma ratThreshold (s t : Nat) : ((s : ℚ) ≥ (t : ℚ) * 0.8) ↔ 5 * s ≥ 4 * t := by
  have h08 : (0.8 : ℚ) = 4 / 5 := by norm_num
  rw [h08, ge_iff_le, ← mul_div_assoc, div_le_iff₀ (by norm_num : (0 : ℚ) < 5)]
  rw [show ((t : ℚ) * 4) = ((4 * t : ℕ) : ℚ) by push_cast; ring,
      show ((s : ℚ) * 5) = ((5 * s : ℕ) : ℚ) by push_cast; ring]
  exact ⟨fun h => by exact_mod_cast h, fun h => by exact_mod_cast h⟩

lemma invocationSuccess_eq (rs : List InvRecord) :
    invocationSuccess rs = decide (5 * successCount rs ≥ 4 * rs.length) := by
  unfold invocationSuccess
  simp only [ratThreshold]

lemma listIsPre_map (f : Char → Char) (p l : List Char)
    (h : listIsPre p l = true) : listIsPre (p.map f) (l.map f) = true := by
  induction p generalizing l with
  | nil => simp [listIsPre]
  | cons a p ih =>
    cases l with
    | nil => simp [listIsPre] at h
    | cons b l =>
      simp only [listIsPre, Bool.and_eq_true, decide_eq_true_eq] at h
      simp only [List.map_cons, listIsPre, Bool.and_eq_true, decide_eq_true_eq]
      exact ⟨by rw [h.1], ih l h.2⟩

lemma listContains_map (f : Char → Char) (hay nd : List Char)
    (h : listContains hay nd = true) :
    listContains (hay.map f) (nd.map f) = true := by
  induction hay with
  | nil =>
    unfold listContains at h
    by_cases hp : listIsPre nd [] = true
    · have hpm : listIsPre (nd.map f) [] = true := by
        have := listIsPre_map f nd [] hp
        simpa using this
      unfold listContains
      simp [hpm]
    · simp [hp] at h
  | cons a t ih =>
    unfold listContains at h
    by_cases hp : listIsPre nd (a :: t) = true
    · have hpm : listIsPre (nd.map f) (f a :: t.map f) = true := by
        have := listIsPre_map f nd (a :: t) hp
        simpa using this
      unfold listContains
      simp [hpm]
    · simp only [hp, if_false] at h
      unfold listContains
      by_cases hp2 : listIsPre (nd.map f) (f a :: t.map f) = true
      · simp [hp2]
      · simp only [List.map_cons, hp2, if_false]
        exact ih h

lemma pyIn_imp_pyInCI (s c : String) (h : pyIn s c = true) :
    pyInCI s c = true :=
  listContains_map Char.toLower c.data s.data h

lemma missingSections_eq_nil {c : String} (h : (missingSections c).isEmpty) :
    missingSections c = [] := by
  cases hm : missingSections c with
  | nil => rfl
  | cons a t => rw [hm] at h; simp at h

lemma runValidation_load_fail (σ : List String → List String) (c : String)
    (n : Nat) (h : (missingSections c).isEmpty = false) :
    runValidation σ c n =
      ({ errors := (missingSections c).map (fun s => "Missing required section: " ++ s),
         warnings := [],
         info := (requiredSections.filter (fun s => pyIn (s ++ ":") c)).map
             (fun s => "✅ Found section: " ++ s) },
       false) := by
  unfold runValidation loadTemplate
  simp [h]

lemma runValidation_load_ok (σ : List String → List String) (c : String)
    (n : Nat) (h : (missingSections c).isEmpty = true) :
    runValidation σ c n =
      ({ errors := snsErrors σ c ++ resourceErrors c,
         warnings := productionWarnings c ++ sizeWarnings n,
         info := (requiredSections.filter (fun s => pyIn (s ++ ":") c)).map
               (fun s => "✅ Found section: " ++ s) ++
             snsInfo σ c ++ resourceInfo c ++ securityInfo c ++
             productionInfo c ++ sizeInfo n },
       (snsErrors σ c ++ resourceErrors c).isEmpty) := by
  unfold runValidation loadTemplate validateSnsPolicies validateResourceStructure
    validateSecurityBestPractices validateProductionReadiness validateTemplateSize
  simp [h, missingSections_eq_nil h]

lemma runValidation_snd (σ : List String → List String) (c : String) (n : Nat) :
    (runValidation σ c n).2 = (runValidation σ c n).1.errors.isEmpty := by
  by_cases h : (missingSections c).isEmpty
  · rw [runValidation_load_ok σ c n h]
  · rw [runValidation_load_fail σ c n (by simpa using h)]
    cases hm : missingSections c with
    | nil => rw [hm] at h; simp at h
    | cons a t => simp [hm]

lemma runOutcome_eq (σ : List String → List String) (c : String) (n : Nat) :
    runOutcome σ c n =
      (if !(runValidation σ c n).2 then Outcome.fail
       else if !(runValidation σ c n).1.warnings.isEmpty then Outcome.passWithWarnings
       else Outcome.pass) := by
  unfold runOutcome
  rcases runValidation σ c n with ⟨st, ok⟩
  rfl

/-- Claim C1: the validator's overall status is `fail` exactly when the
error bucket is non-empty; otherwise `pass-with-warnings` when the
warning bucket is non-empty and clean `pass` when both are empty; the
exit code is 0 for `pass`/`pass-with-warnings` and 1 for `fail`. -/
theorem claim_C1_overall_status (σ : List String → List String) (c : String)
    (n : Nat) :
    (runOutcome σ c n = Outcome.fail ↔ (runValidation σ c n).1.errors ≠ []) ∧
    (runOutcome σ c n = Outcome.passWithWarnings ↔
      (runValidation σ c n).1.errors = [] ∧
        (runValidation σ c n).1.warnings ≠ []) ∧
    (runOutcome σ c n = Outcome.pass ↔
      (runValidation σ c n).1.errors = [] ∧
        (runValidation σ c n).1.warnings = []) ∧
    (mainExitCode σ c n = if (runValidation σ c n).1.errors = [] then 0 else 1) := by
  have hsnd := runValidation_snd σ c n
  rw [runOutcome_eq]
  unfold mainExitCode
  rw [hsnd]
  cases he : (runValidation σ c n).1.errors with
  | nil =>
    cases hw : (runValidation σ c n).1.warnings with
    | nil => simp [he, hw]
    | cons a t => simp [he, hw]
  | cons a t =>
    simp [he]

/-- Claim C2 counterexample: a document that misses required sections but
plainly contains `sns:Unsubscribe` — the run stops after `load_template`,
reporting only the missing-section errors; neither message of the SNS
policy family is present, so the remaining rule families did not
execute. -/
theorem claim_C2_counterexample :
    pyIn "sns:Unsubscribe" "sns:Unsubscribe" = true ∧
    (runValidation id "sns:Unsubscribe" 15).1.errors =
      ["Missing required section: AWSTemplateFormatVersion",
       "Missing required section: Description",
       "Missing required section: Parameters",
       "Missing required section: Resources",
       "Missing required section: Outputs"] ∧
    "sns:Unsubscribe is not a valid SNS topic policy action" ∉
      (runValidation id "sns:Unsubscribe" 15).1.errors ∧
    "Invalid SNS action found: sns:Unsubscribe" ∉
      (runValidation id "sns:Unsubscribe" 15).1.errors := by
  decide

/-- Claim C2 (amended): when any required top-level section is missing,
`load_template` fails and `run_validation` returns immediately; none of
the SNS-policy, resource-structure, security, production-readiness or
size rule families run — the final state is exactly the
`load_template` state, the errors are exactly the missing-section
messages, and the run fails with exit code 1. -/
theorem claim_C2_amended (σ : List String → List String) (c : String)
    (n : Nat) (h : (missingSections c).isEmpty = false) :
    runValidation σ c n = ((loadTemplate c ⟨[], [], []⟩).1, false) ∧
    (runValidation σ c n).1.errors =
      (missingSections c).map (fun s => "Missing required section: " ++ s) ∧
    runOutcome σ c n = Outcome.fail ∧
    mainExitCode σ c n = 1 := by
  have hrv := runValidation_load_fail σ c n h
  refine ⟨?_, ?_, ?_, ?_⟩
  · rw [hrv]
    unfold loadTemplate
    simp
  · rw [hrv]
  · rw [runOutcome_eq, hrv]
    rfl
  · unfold mainExitCode
    rw [hrv]
    rfl

theorem claim_C2_amended_witness :
    runValidation id "sns:Unsubscribe" 15 =
      ((loadTemplate "sns:Unsubscribe" ⟨[], [], []⟩).1, false) ∧
    (runValidation id "sns:Unsubscribe" 15).1.errors =
      (missingSections "sns:Unsubscribe").map
        (fun s => "Missing required section: " ++ s) ∧
    runOutcome id "sns:Unsubscribe" 15 = Outcome.fail ∧
    mainExitCode id "sns:Unsubscribe" 15 = 1 :=
  claim_C2_amended id "sns:Unsubscribe" 15 (by decide)

/-- Claim C5: any document containing the literal `sns:Unsubscribe` makes
the SNS-policy rule append its error message whenever the rule runs, and
the overall validation of such a document fails with exit code 1. -/
theorem claim_C5_unsubscribe_fails (σ : List String → List String)
    (c : String) (n : Nat) (st : VState)
    (h : pyIn "sns:Unsubscribe" c = true) :
    "sns:Unsubscribe is not a valid SNS topic policy action" ∈
      (validateSnsPolicies σ c st).errors ∧
    runOutcome σ c n = Outcome.fail ∧
    mainExitCode σ c n = 1 := by
  have hci : pyInCI "sns:Unsubscribe" c = true := pyIn_imp_pyInCI _ _ h
  have hmem : "sns:Unsubscribe is not a valid SNS topic policy action" ∈
      snsErrors σ c := by
    unfold snsErrors
    rw [hci]
    simp
  have hfalse : (runValidation σ c n).2 = false := by
    rw [runValidation_snd]
    by_cases hm : (missingSections c).isEmpty
    · rw [runValidation_load_ok σ c n hm]
      cases hx : snsErrors σ c with
      | nil => rw [hx] at hmem; simp at hmem
      | cons a t => simp [hx]
    · rw [runValidation_load_fail σ c n (by simpa using hm)]
      cases hmm : missingSections c with
      | nil => rw [hmm] at hm; simp at hm
      | cons a t => simp [hmm]
  refine ⟨?_, ?_, ?_⟩
  · unfold validateSnsPolicies
    simp only [List.mem_append]
    exact Or.inr hmem
  · rw [runOutcome_eq, hfalse]
    rfl
  · unfold mainExitCode
    rw [hfalse]
    rfl

theorem claim_C5_witness :
    "sns:Unsubscribe is not a valid SNS topic policy action" ∈
      (validateSnsPolicies id "sns:Unsubscribe sns:Publish" ⟨[], [], []⟩).errors ∧
    runOutcome id "sns:Unsubscribe sns:Publish" 25 = Outcome.fail ∧
    mainExitCode id "sns:Unsubscribe sns:Publish" 25 = 1 :=
  claim_C5_unsubscribe_fails id "sns:Unsubscribe sns:Publish" 25 ⟨[], [], []⟩
    (by decide)

lemma perm_isEmpty_eq {l₁ l₂ : List String} (h : l₁.Perm l₂) :
    l₁.isEmpty = l₂.isEmpty := by
  have hl := h.length_eq
  cases l₁ <;> cases l₂ <;> simp_all

lemma snsErrors_perm (σ₁ σ₂ : List String → List String)
    (h₁ : ∀ l, (σ₁ l).Perm l) (h₂ : ∀ l, (σ₂ l).Perm l) (c : String) :
    (snsErrors σ₁ c).Perm (snsErrors σ₂ c) := by
  unfold snsErrors
  refine List.Perm.append
    (List.Perm.append (List.Perm.append ?_ (List.Perm.refl _))
      (List.Perm.refl _)) (List.Perm.refl _)
  cases hi : (snsInvalidActions c).isEmpty with
  | true => simp
  | false =>
    simp only [Bool.false_eq_true, if_false]
    exact ((h₁ _).trans (h₂ _).symm).map _

/-- Claim C7 counterexample: the same document validated under two
set-iteration orders (both legitimate orders of a CPython `str` set,
whose iteration order varies with the per-process hash seed) produces
differently ordered error buckets, so two runs of the validator on the
same unchanged document need not produce identical buckets. -/
theorem claim_C7_counterexample :
    (runValidation id
        "AWSTemplateFormatVersion:\nDescription:\nParameters:\nResources:\nOutputs:\nsns:Foo sns:Bar"
        80).1.errors ≠
    (runValidation List.reverse
        "AWSTemplateFormatVersion:\nDescription:\nParameters:\nResources:\nOutputs:\nsns:Foo sns:Bar"
        80).1.errors := by
  decide

/-- Claim C7 (amended): the static validator is deterministic up to the
iteration order of its string sets — for any two hash-seed orders the
two runs have the same overall verdict, the same exit code, the same
warning bucket, and error buckets equal as multisets; with the same
order (in particular within one process) all buckets coincide since the
run is a pure function of the document, its size and the order. -/
theorem claim_C7_deterministic_up_to_set_order
    (σ₁ σ₂ : List String → List String) (c : String) (n : Nat)
    (h₁ : ∀ l, (σ₁ l).Perm l) (h₂ : ∀ l, (σ₂ l).Perm l) :
    runOutcome σ₁ c n = runOutcome σ₂ c n ∧
    mainExitCode σ₁ c n = mainExitCode σ₂ c n ∧
    (runValidation σ₁ c n).1.errors.Perm (runValidation σ₂ c n).1.errors ∧
    (runValidation σ₁ c n).1.warnings = (runValidation σ₂ c n).1.warnings := by
  by_cases hm : (missingSections c).isEmpty
  · have hrv₁ := runValidation_load_ok σ₁ c n hm
    have hrv₂ := runValidation_load_ok σ₂ c n hm
    have hperm : (snsErrors σ₁ c ++ resourceErrors c).Perm
        (snsErrors σ₂ c ++ resourceErrors c) :=
      (snsErrors_perm σ₁ σ₂ h₁ h₂ c).append (List.Perm.refl _)
    have hemp := perm_isEmpty_eq hperm
    refine ⟨?_, ?_, ?_, ?_⟩
    · rw [runOutcome_eq, runOutcome_eq, hrv₁, hrv₂]
      simp only [hemp]
    · unfold mainExitCode
      rw [hrv₁, hrv₂]
      simp only [hemp]
    · rw [hrv₁, hrv₂]
      exact hperm
    · rw [hrv₁, hrv₂]
  · have hm' : (missingSections c).isEmpty = false := by simpa using hm
    have hrv₁ := runValidation_load_fail σ₁ c n hm'
    have hrv₂ := runValidation_load_fail σ₂ c n hm'
    refine ⟨?_, ?_, ?_, ?_⟩
    · rw [runOutcome_eq, runOutcome_eq, hrv₁, hrv₂]
    · unfold mainExitCode
      rw [hrv₁, hrv₂]
    · rw [hrv₁, hrv₂]
    · rw [hrv₁, hrv₂]

theorem claim_C7_witness :
    runOutcome id
        "AWSTemplateFormatVersion:\nDescription:\nParameters:\nResources:\nOutputs:\nsns:Foo sns:Bar"
        80 =
      runOutcome List.reverse
        "AWSTemplateFormatVersion:\nDescription:\nParameters:\nResources:\nOutputs:\nsns:Foo sns:Bar"
        80 ∧
    mainExitCode id
        "AWSTemplateFormatVersion:\nDescription:\nParameters:\nResources:\nOutputs:\nsns:Foo sns:Bar"
        80 =
      mainExitCode List.reverse
        "AWSTemplateFormatVersion:\nDescription:\nParameters:\nResources:\nOutputs:\nsns:Foo sns:Bar"
        80 ∧
    (runValidation id
        "AWSTemplateFormatVersion:\nDescription:\nParameters:\nResources:\nOutputs:\nsns:Foo sns:Bar"
        80).1.errors.Perm
      (runValidation List.reverse
        "AWSTemplateFormatVersion:\nDescription:\nParameters:\nResources:\nOutputs:\nsns:Foo sns:Bar"
        80).1.errors ∧
    (runValidation id
        "AWSTemplateFormatVersion:\nDescription:\nParameters:\nResources:\nOutputs:\nsns:Foo sns:Bar"
        80).1.warnings =
      (runValidation List.reverse
        "AWSTemplateFormatVersion:\nDescription:\nParameters:\nResources:\nOutputs:\nsns:Foo sns:Bar"
        80).1.warnings :=
  claim_C7_deterministic_up_to_set_order id List.reverse
    "AWSTemplateFormatVersion:\nDescription:\nParameters:\nResources:\nOutputs:\nsns:Foo sns:Bar"
    80 (fun l => List.Perm.refl l) (fun l => List.reverse_perm l)

/-- Claim C3: the live probe's terminal decision exits 0 exactly when
the successful invocations reach 80% of the total and the dashboard is
reachable; in particular 9 successes out of 10 invocations (ratio 0.9)
meet the threshold, so with a reachable dashboard the probe succeeds. -/
theorem claim_C3_exit_threshold :
    (∀ (rs : List InvRecord) (wv : WidgetVerification),
      mainExitDecision rs wv = 0 ↔
        ((successCount rs : ℚ) ≥ (rs.length : ℚ) * 0.8 ∧
          wv.dashboard_accessible = true)) ∧
    (generateTestInvocations scenarioDEnv 10).length = 10 ∧
    successCount (generateTestInvocations scenarioDEnv 10) = 9 ∧
    mainExitDecision (generateTestInvocations scenarioDEnv 10)
      { dashboard_accessible := true } = 0 := by
  refine ⟨?_, by decide, by decide, ?_⟩
  · intro rs wv
    unfold mainExitDecision invocationSuccess
    by_cases hp : ((successCount rs : ℚ) ≥ (rs.length : ℚ) * 0.8)
    · by_cases hd : wv.dashboard_accessible = true
      · simp [hp, hd]
      · simp [hp, hd]
    · simp [hp]
  · unfold mainExitDecision
    rw [invocationSuccess_eq]
    decide

/-- Claim C6: for every `N` the invocation phase performs exactly `N`
requests, returning one record per request numbered `1..N`; a failing
request yields a `success=False` record carrying the error message, and
the loop still produces the records of all remaining requests. -/
theorem claim_C6_invocation_loop (env : Nat → InvokeOutcome) (n : Nat) :
    (generateTestInvocations env n).length = n ∧
    ∀ i, i < n →
      ∃ r, (generateTestInvocations env n)[i]? = some r ∧
        r.invocation = i + 1 ∧
        (∀ msg ts, env i = InvokeOutcome.exn msg ts →
          r.success = false ∧ r.error = some msg) ∧
        (∀ lat body ts, env i = InvokeOutcome.ok lat body ts →
          r.success = true ∧ r.error = none) := by
  constructor
  · simp [generateTestInvocations]
  · intro i hi
    rcases henv : env i with ⟨lat, body, ts⟩ | ⟨msg, ts⟩
    · refine ⟨mkSuccessRecord i lat body ts, ?_, rfl, ?_, ?_⟩
      · unfold generateTestInvocations
        simp only [List.getElem?_map, List.getElem?_range hi, Option.map_some']
        rw [henv]
      · intro msg ts' h'
        cases h'
      · intro lat' body' ts' _
        exact ⟨rfl, rfl⟩
    · refine ⟨mkFailureRecord i msg ts, ?_, rfl, ?_, ?_⟩
      · unfold generateTestInvocations
        simp only [List.getElem?_map, List.getElem?_range hi, Option.map_some']
        rw [henv]
      · intro msg' ts' h'
        injection h' with e1 e2
        subst e1
        exact ⟨rfl, rfl⟩
      · intro lat' body' ts' h'
        cases h'

theorem claim_C6_witness :
    (generateTestInvocations scenarioDEnv 10).length = 10 ∧
    (∃ r, (generateTestInvocations scenarioDEnv 10)[4]? = some r ∧
      r.invocation = 5 ∧
      (∀ msg ts, scenarioDEnv 4 = InvokeOutcome.exn msg ts →
        r.success = false ∧ r.error = some msg) ∧
      (∀ lat body ts, scenarioDEnv 4 = InvokeOutcome.ok lat body ts →
        r.success = true ∧ r.error = none)) :=
  ⟨(claim_C6_invocation_loop scenarioDEnv 10).1,
   (claim_C6_invocation_loop scenarioDEnv 10).2 4 (by decide)⟩

lemma latencyBlockLines_ok (fmtQ : String → ℚ → String)
    (fmtInt : String → Int → String) (results : List InvRecord) :
    ∃ lb, latencyBlockLines fmtQ fmtInt results = Except.ok lb := by
  unfold latencyBlockLines
  by_cases hs : successCount results > 0
  · have hq : ((results.filter (fun r => r.success)).length : ℚ) ≠ 0 := by
      have he : (results.filter (fun r => r.success)).length = successCount results := rfl
      rw [he]
      exact_mod_cast Nat.pos_iff_ne_zero.mp hs
    rw [if_pos hs]
    unfold pyDivQ
    dsimp only
    rw [if_neg hq]
    exact ⟨_, rfl⟩
  · rw [if_neg hs]
    exact ⟨[], rfl⟩

/-- Claim C10: for a non-empty record list the report generator
completes and reports the success rate as
`(successful records / total records) * 100`; for the empty list the
success-rate expression divides by zero and raises, so report generation
implicitly requires at least one record. -/
theorem claim_C10_report_rate :
    (∀ (fmtQ : String → ℚ → String) (fmtInt : String → Int → String)
       (self : TesterSelf) (now : String) (results : List InvRecord)
       (wv : WidgetVerification) (cv : CostVerification),
      results ≠ [] →
      ∃ lines,
        generateTestReportLines fmtQ fmtInt self now results wv cv =
          Except.ok lines ∧
        ("Success Rate: " ++
            fmtQ ".1f" ((successCount results : ℚ) / (results.length : ℚ) * 100)
            ++ "%") ∈ lines) ∧
    (∀ (fmtQ : String → ℚ → String) (fmtInt : String → Int → String)
       (self : TesterSelf) (now : String) (wv : WidgetVerification)
       (cv : CostVerification),
      generateTestReportLines fmtQ fmtInt self now [] wv cv =
        Except.error "ZeroDivisionError: division by zero") := by
  constructor
  · intro fmtQ fmtInt self now results wv cv hne
    have hlen : ((results.length : ℕ) : ℚ) ≠ 0 :=
      Nat.cast_ne_zero.mpr (fun hz => hne (List.length_eq_zero.mp hz))
    obtain ⟨lb, hlb⟩ := latencyBlockLines_ok fmtQ fmtInt results
    have hdiv : pyDivQ ((successCount results : ℕ) : ℚ)
        ((results.length : ℕ) : ℚ) =
        Except.ok ((successCount results : ℚ) / (results.length : ℚ)) := by
      unfold pyDivQ
      rw [if_neg hlen]
    unfold generateTestReportLines
    dsimp only
    rw [hdiv, hlb]
    refine ⟨_, rfl, ?_⟩
    simp
  · intro fmtQ fmtInt self now wv cv
    have hdiv : pyDivQ ((successCount ([] : List InvRecord) : ℕ) : ℚ)
        ((List.length ([] : List InvRecord) : ℕ) : ℚ) =
        Except.error "ZeroDivisionError: division by zero" := by
      unfold pyDivQ
      rw [if_pos (by simp)]
    unfold generateTestReportLines
    dsimp only
    rw [hdiv]
    rfl

theorem claim_C10_witness :
    (∃ lines,
      generateTestReportLines (fun _ q => toString q.num) (fun _ i => toString i)
          ⟨"us-east-1", "nova-stack", "amazon.nova-pro-v1:0", "NovaProMonitoring", none⟩
          "2025-12-01T01:00:00"
          (generateTestInvocations scenarioDEnv 3)
          { dashboard_accessible := true }
          { cost_calculation_available := false } = Except.ok lines ∧
      ("Success Rate: " ++
          (fun (_ : String) (q : ℚ) => toString q.num) ".1f"
            ((successCount (generateTestInvocations scenarioDEnv 3) : ℚ) /
              ((generateTestInvocations scenarioDEnv 3).length : ℚ) * 100)
          ++ "%") ∈ lines) ∧
    generateTestReportLines (fun _ q => toString q.num) (fun _ i => toString i)
        ⟨"us-east-1", "nova-stack", "amazon.nova-pro-v1:0", "NovaProMonitoring", none⟩
        "2025-12-01T01:00:00" []
        { dashboard_accessible := true }
        { cost_calculation_available := false } =
      Except.error "ZeroDivisionError: division by zero" :=
  ⟨claim_C10_report_rate.1 _ _ _ _ _ _ _ (by decide),
   claim_C10_report_rate.2 _ _ _ _ _ _⟩

lemma countWidgets_go (ws : List DashWidget) (acc : WidgetCategory → Nat)
    (cat : WidgetCategory) :
    (ws.foldl
      (fun counts w =>
        match classifyTitle (widgetTitleOf w) with
        | some c => fun c2 => if c2 = c then counts c2 + 1 else counts c2
        | none => counts) acc) cat =
    acc cat +
      (ws.filter (fun w => classifyTitle (widgetTitleOf w) = some cat)).length := by
  induction ws generalizing acc with
  | nil => simp
  | cons w ws ih =>
    simp only [List.foldl_cons, List.filter_cons]
    cases hcl : classifyTitle (widgetTitleOf w) with
    | none =>
      rw [ih]
      simp [hcl]
    | some c =>
      rw [ih]
      by_cases hc : cat = c
      · subst hc
        simp [hcl]
        omega
      · simp [hcl, hc, Ne.symm hc]

/-- Claim C4 counterexample: a widget whose title matches no keyword set
(here `Overview`) is classified into no category at all — the `if`/`elif`
chain has no `else` — so not every widget lands in exactly one of the six
categories. -/
theorem claim_C4_counterexample :
    classifyTitle "Overview" = none ∧
    sumCounts (countWidgets [{ title := some "Overview", wtype := some "metric" }]) = 0 := by
  decide

/-- Claim C4 (amended): the classifier assigns each widget to at most
one category — the first keyword match in the fixed order usage → cost →
performance → error → token/concurrency → guardrail wins, a widget
matching an earlier category is never counted in a later one, and a
widget matching no keyword set is counted nowhere; the per-category
counters count exactly the widgets classified into that category. -/
theorem claim_C4_first_match_priority :
    (∀ (ws : List DashWidget) (cat : WidgetCategory),
      countWidgets ws cat =
        (ws.filter (fun w => classifyTitle (widgetTitleOf w) = some cat)).length) ∧
    (∀ title cat, classifyTitle title = some cat →
      titleMatches (categoryKeywords cat) title = true ∧
      ∀ cat2, catIdx cat2 < catIdx cat →
        titleMatches (categoryKeywords cat2) title = false) := by
  constructor
  · intro ws cat
    unfold countWidgets
    rw [countWidgets_go]
    simp
  · intro title cat h
    unfold classifyTitle at h
    by_cases h0 : titleMatches (categoryKeywords WidgetCategory.usage) title = true
    · rw [if_pos h0] at h
      injection h with hc
      subst hc
      refine ⟨h0, ?_⟩
      intro cat2 hlt
      cases cat2 <;> simp [catIdx] at hlt
    · have h0f : titleMatches (categoryKeywords WidgetCategory.usage) title = false :=
        Bool.not_eq_true _ ▸ eq_false_of_ne_true h0
      rw [if_neg h0] at h
      by_cases h1 : titleMatches (categoryKeywords WidgetCategory.cost) title = true
      · rw [if_pos h1] at h
        injection h with hc
        subst hc
        refine ⟨h1, ?_⟩
        intro cat2 hlt
        cases cat2 <;>
          first
          | exact h0f
          | simp [catIdx] at hlt
      · have h1f : titleMatches (categoryKeywords WidgetCategory.cost) title = false :=
          eq_false_of_ne_true h1
        rw [if_neg h1] at h
        by_cases h2 : titleMatches (categoryKeywords WidgetCategory.performance) title = true
        · rw [if_pos h2] at h
          injection h with hc
          subst hc
          refine ⟨h2, ?_⟩
          intro cat2 hlt
          cases cat2 <;>
            first
            | exact h0f
            | exact h1f
            | simp [catIdx] at hlt
        · have h2f : titleMatches (categoryKeywords WidgetCategory.performance) title = false :=
            eq_false_of_ne_true h2
          rw [if_neg h2] at h
          by_cases h3 : titleMatches (categoryKeywords WidgetCategory.errorMonitoring) title = true
          · rw [if_pos h3] at h
            injection h with hc
            subst hc
            refine ⟨h3, ?_⟩
            intro cat2 hlt
            cases cat2 <;>
              first
              | exact h0f
              | exact h1f
              | exact h2f
              | simp [catIdx] at hlt
          · have h3f : titleMatches (categoryKeywords WidgetCategory.errorMonitoring) title = false :=
              eq_false_of_ne_true h3
            rw [if_neg h3] at h
            by_cases h4 : titleMatches (categoryKeywords WidgetCategory.invocationPatterns) title = true
            · rw [if_pos h4] at h
              injection h with hc
              subst hc
              refine ⟨h4, ?_⟩
              intro cat2 hlt
              cases cat2 <;>
                first
                | exact h0f
                | exact h1f
                | exact h2f
                | exact h3f
                | simp [catIdx] at hlt
            · have h4f : titleMatches (categoryKeywords WidgetCategory.invocationPatterns) title = false :=
                eq_false_of_ne_true h4
              rw [if_neg h4] at h
              by_cases h5 : titleMatches (categoryKeywords WidgetCategory.guardrails) title = true
              · rw [if_pos h5] at h
                injection h with hc
                subst hc
                refine ⟨h5, ?_⟩
                intro cat2 hlt
                cases cat2 <;>
                  first
                  | exact h0f
                  | exact h1f
                  | exact h2f
                  | exact h3f
                  | exact h4f
                  | simp [catIdx] at hlt
              · rw [if_neg h5] at h
                cases h

theorem claim_C4_witness :
    titleMatches (categoryKeywords WidgetCategory.cost) "Token Cost Tracking" = true ∧
    ∀ cat2, catIdx cat2 < catIdx WidgetCategory.cost →
      titleMatches (categoryKeywords cat2) "Token Cost Tracking" = false :=
  claim_C4_first_match_priority.2 "Token Cost Tracking" WidgetCategory.cost (by decide)

/-- Claim C8: the parameter-default rule passes exactly when every
extracted parameter other than the required `MonitoringRegion` carries a
`Default` key whose value is not `None` (an empty-string default
qualifies, since only `None` is rejected); when it fails, the assertion
message names an offending parameter and states which of the two checks
it violated. -/
theorem claim_C8_parameter_defaults
    (params : List (String × List (String × PyJson))) :
    (testOptionalParametersHaveDefaults params = Except.ok () ↔
      ∀ p ∈ params, p.1 ≠ "MonitoringRegion" →
        ∃ v, paramLookup p.2 "Default" = some v ∧ v.isNull = false) ∧
    (∀ msg, testOptionalParametersHaveDefaults params = Except.error msg →
      ∃ p ∈ params, p.1 ≠ "MonitoringRegion" ∧
        ((paramLookup p.2 "Default" = none ∧ msg = missingDefaultMsg p.1) ∨
         (∃ v, paramLookup p.2 "Default" = some v ∧ v.isNull = true ∧
            msg = noneDefaultMsg p.1))) := by
  induction params with
  | nil =>
    constructor
    · simp [testOptionalParametersHaveDefaults]
    · intro msg hmsg
      exact absurd hmsg (by simp [testOptionalParametersHaveDefaults])
  | cons p rest ih =>
    obtain ⟨name, cfg⟩ := p
    have hreqIff : requiredParams.contains name = true ↔ name = "MonitoringRegion" := by
      simp [requiredParams]
    constructor
    · unfold testOptionalParametersHaveDefaults
      by_cases hreq : requiredParams.contains name = true
      · have hname : name = "MonitoringRegion" := hreqIff.mp hreq
        rw [if_pos hreq, ih.1]
        simp only [List.mem_cons]
        constructor
        · intro hall q hq hqn
          rcases hq with rfl | hq
          · exact absurd hname hqn
          · exact hall q hq hqn
        · intro hall q hq
          exact hall q (Or.inr hq)
      · have hname : name ≠ "MonitoringRegion" := fun he =>
          hreq (hreqIff.mpr he)
        rw [if_neg hreq]
        cases hlk : paramLookup cfg "Default" with
        | none =>
          simp only [List.mem_cons]
          constructor
          · intro habs
            exact Except.noConfusion habs
          · intro hall
            exfalso
            obtain ⟨v, hv, _⟩ := hall (name, cfg) (Or.inl rfl) hname
            rw [hlk] at hv
            exact Option.noConfusion hv
        | some v =>
          dsimp only
          cases hnull : v.isNull with
          | true =>
            rw [if_pos rfl]
            simp only [List.mem_cons]
            constructor
            · intro habs
              exact Except.noConfusion habs
            · intro hall
              exfalso
              obtain ⟨v', hv', hn'⟩ := hall (name, cfg) (Or.inl rfl) hname
              rw [hlk] at hv'
              injection hv' with he
              rw [he] at hnull
              rw [hnull] at hn'
              exact Bool.noConfusion hn'
          | false =>
            rw [if_neg (by simp)]
            rw [ih.1]
            simp only [List.mem_cons]
            constructor
            · intro hall q hq hqn
              rcases hq with rfl | hq
              · exact ⟨v, hlk, hnull⟩
              · exact hall q hq hqn
            · intro hall q hq
              exact hall q (Or.inr hq)
    · intro msg hmsg
      unfold testOptionalParametersHaveDefaults at hmsg
      by_cases hreq : requiredParams.contains name = true
      · rw [if_pos hreq] at hmsg
        obtain ⟨q, hq, hrest⟩ := ih.2 msg hmsg
        exact ⟨q, List.mem_cons_of_mem _ hq, hrest⟩
      · have hname : name ≠ "MonitoringRegion" := fun he =>
          hreq (hreqIff.mpr he)
        rw [if_neg hreq] at hmsg
        cases hlk : paramLookup cfg "Default" with
        | none =>
          rw [hlk] at hmsg
          injection hmsg with he
          exact ⟨(name, cfg), List.mem_cons_self _ _, hname,
            Or.inl ⟨hlk, he.symm⟩⟩
        | some v =>
          rw [hlk] at hmsg
          dsimp only at hmsg
          cases hnull : v.isNull with
          | true =>
            rw [if_pos hnull] at hmsg
            injection hmsg with he
            exact ⟨(name, cfg), List.mem_cons_self _ _, hname,
              Or.inr ⟨v, hlk, hnull, he.symm⟩⟩
          | false =>
            rw [if_neg (by simp [hnull])] at hmsg
            obtain ⟨q, hq, hrest⟩ := ih.2 msg hmsg
            exact ⟨q, List.mem_cons_of_mem _ hq, hrest⟩

theorem claim_C8_witness :
    ∃ p ∈ ([("AlarmEmail", [("Default", PyJson.null)])] :
        List (String × List (String × PyJson))),
      p.1 ≠ "MonitoringRegion" ∧
      ((paramLookup p.2 "Default" = none ∧
          noneDefaultMsg "AlarmEmail" = missingDefaultMsg p.1) ∨
       (∃ v, paramLookup p.2 "Default" = some v ∧ v.isNull = true ∧
          noneDefaultMsg "AlarmEmail" = noneDefaultMsg p.1)) :=
  (claim_C8_parameter_defaults
      [("AlarmEmail", [("Default", PyJson.null)])]).2
    (noneDefaultMsg "AlarmEmail") rfl

/-- Claim C9 counterexample: on a document without the `DashboardBody:`
start marker the dashboard-JSON extractor returns the `None` sentinel —
not an empty mapping or list — so not every extractor yields an empty
structure when its marker is absent. -/
theorem claim_C9_counterexample :
    extractDashboardJson (fun _ => Except.error "invalid json")
        "no dashboard body here" = none ∧
    ∀ j : PyJson,
      extractDashboardJson (fun _ => Except.error "invalid json")
        "no dashboard body here" ≠ some j := by
  have h : extractDashboardJson (fun _ => Except.error "invalid json")
      "no dashboard body here" = none := by
    unfold extractDashboardJson
    rw [show pyFind "no dashboard body here" "DashboardBody:" = none from by decide]
  exact ⟨h, fun j hj => Option.noConfusion (h ▸ hj)⟩

/-- Claim C9 (amended): none of the three extractors raises to its caller
when its start marker is absent — the resources extractor and the
IAM-policy extractor return the empty mapping, while the dashboard-JSON
extractor returns the `None` sentinel rather than an empty structure. -/
theorem claim_C9_marker_absent :
    (∀ c, pyFind c "Resources:" = none → extractTemplateResources c = []) ∧
    (∀ c, pyFind c "DashboardViewerPolicy:" = none →
      extractIamPolicies c = []) ∧
    (∀ (jsonLoads : String → Except String PyJson) c,
      pyFind c "DashboardBody:" = none →
      extractDashboardJson jsonLoads c = none) := by
  refine ⟨?_, ?_, ?_⟩
  · intro c h
    unfold extractTemplateResources
    rw [h]
  · intro c h
    unfold extractIamPolicies
    rw [h]
  · intro jsonLoads c h
    unfold extractDashboardJson
    rw [h]

theorem claim_C9_witness :
    extractTemplateResources "Parameters only" = [] ∧
    extractIamPolicies "Parameters only" = [] ∧
    extractDashboardJson (fun _ => Except.error "invalid json")
      "Parameters only" = none :=
  ⟨claim_C9_marker_absent.1 "Parameters only" (by decide),
   claim_C9_marker_absent.2.1 "Parameters only" (by decide),
   claim_C9_marker_absent.2.2 (fun _ => Except.error "invalid json")
     "Parameters only" (by decide)⟩
